import Mathlib

/-!
Verification of the `db_tool` CLI (src/src/main.rs) against its specification.

The program is a command dispatcher with four subcommands (status, recreate,
seed, reset) acting on an external world: a filesystem, a subprocess runner
and a Postgres connection.  We embed it shallowly: the external world is a
record of oracles (does the recreation script exist, what exit status a spawn
yields, what a file read returns, whether connecting and executing succeed),
and each Rust function becomes a pure Lean function returning its
`Except`-result together with the ordered list of external effects it
performed.  The effect trace lets us state the frame/ordering claims
(which side effects each command performs, and in what order).
-/

/-- External effects the program can perform, in the order they occur.
`checkScriptExists` is the filesystem existence test on `./db_recreate.sh`;
`spawnScript a` is spawning the recreation script with the single positional
argument `a`; `readFile p` is `fs::read_to_string(p)`; `connectDb u` is
`PgConnection::connect(u)`; `execStmt u s` is submitting statement text `s`
on the connection opened with `u`. -/
inductive Event where
  | checkScriptExists : Event
  | spawnScript : String → Event
  | readFile : String → Event
  | connectDb : String → Event
  | execStmt : String → String → Event
deriving DecidableEq, Repr

/-- Error kinds of the tool, mirroring the `anyhow::bail!`/`.context` sites in
`main.rs`.  `scriptExit st` carries `status.code()`: `some c` for a normal
exit with code `c`, `none` ("unknown") when the process was killed by a
signal and yielded no code.  `configMissing` is clap's error when the
required `--url` flag is absent and `DATABASE_URL` is unset. -/
inductive Err where
  | configMissing : Err
  | connectionError : Err
  | queryError : Err
  | scriptNotFound : Err
  | spawnFailed : Err
  | scriptExit : Option Int → Err
  | fileRead : String → Err
deriving DecidableEq, Repr

/-- The external world the program runs against.
`scriptExists` answers `Path::new("./db_recreate.sh").exists()`;
`spawnResult a` is the outcome of `Command::new("./db_recreate.sh").arg(a).status()`:
`none` when the spawn itself fails, `some st` when the child terminated with
`status.code() = st` (on Unix, `status.success()` holds exactly when
`st = some 0`); `fileContents p` is `fs::read_to_string(p)` (`none` = read
error: not found, permission, or invalid encoding); `connectOk u` is whether
`PgConnection::connect(u)` succeeds; `executeOk u s` is whether
`conn.execute(s)` on that connection succeeds. -/
structure World where
  scriptExists : Bool
  spawnResult : String → Option (Option Int)
  fileContents : String → Option String
  connectOk : String → Bool
  executeOk : String → String → Bool

/-- The subcommand, as parsed by clap (`enum Commands` in main.rs).
`seed` and `reset` carry the `--file` path (default `insert_data.sql`). -/
inductive Commands where
  | status : Commands
  | recreate : Commands
  | seed : String → Commands
  | reset : String → Commands
deriving DecidableEq, Repr

/-- Embedding of `check_status` (main.rs lines 40-52): connect to `db_url`,
then execute the validation query `SELECT 1`; succeed only if both steps
succeed, failing with the first step's error otherwise. -/
def check_status (w : World) (db_url : String) : Except Err Unit × List Event :=
  if w.connectOk db_url then
    if w.executeOk db_url "SELECT 1" then
      (Except.ok (), [Event.connectDb db_url, Event.execStmt db_url "SELECT 1"])
    else
      (Except.error Err.queryError,
        [Event.connectDb db_url, Event.execStmt db_url "SELECT 1"])
  else
    (Except.error Err.connectionError, [Event.connectDb db_url])

/-- Embedding of `run_recreate_script` (main.rs lines 54-73): first test that
`./db_recreate.sh` exists, bailing with `scriptNotFound` if not (no spawn);
otherwise spawn it with `db_url` as sole argument and wait; succeed exactly
when the child exits with status 0, otherwise bail carrying `status.code()`. -/
def run_recreate_script (w : World) (db_url : String) :
    Except Err Unit × List Event :=
  if w.scriptExists then
    match w.spawnResult db_url with
    | none =>
        (Except.error Err.spawnFailed,
          [Event.checkScriptExists, Event.spawnScript db_url])
    | some st =>
        if st = some 0 then
          (Except.ok (), [Event.checkScriptExists, Event.spawnScript db_url])
        else
          (Except.error (Err.scriptExit st),
            [Event.checkScriptExists, Event.spawnScript db_url])
  else
    (Except.error Err.scriptNotFound, [Event.checkScriptExists])

/-- Embedding of `run_seed_sql` (main.rs lines 75-91): read the file fully
into memory (bail with `fileRead` on failure, before any connection), then
connect with `db_url`, then submit the file's text verbatim as the single
executed statement. -/
def run_seed_sql (w : World) (db_url : String) (file_path : String) :
    Except Err Unit × List Event :=
  match w.fileContents file_path with
  | none => (Except.error (Err.fileRead file_path), [Event.readFile file_path])
  | some sql_content =>
    if w.connectOk db_url then
      if w.executeOk db_url sql_content then
        (Except.ok (),
          [Event.readFile file_path, Event.connectDb db_url,
            Event.execStmt db_url sql_content])
      else
        (Except.error Err.queryError,
          [Event.readFile file_path, Event.connectDb db_url,
            Event.execStmt db_url sql_content])
    else
      (Except.error Err.connectionError,
        [Event.readFile file_path, Event.connectDb db_url])

/-- Embedding of the `match &cli.command` dispatch in `main` (lines 100-114):
exactly one arm runs; `reset` runs `run_recreate_script` and, only if it
returned `Ok`, continues with `run_seed_sql` on the same url and file
(the `?` operator returns the first error immediately). -/
def run_command (w : World) (url : String) : Commands → Except Err Unit × List Event
  | Commands.status => check_status w url
  | Commands.recreate => run_recreate_script w url
  | Commands.seed file => run_seed_sql w url file
  | Commands.reset file =>
    match run_recreate_script w url with
    | (Except.error e, t) => (Except.error e, t)
    | (Except.ok _, t) =>
      let s := run_seed_sql w url file
      (s.1, t ++ s.2)

/-- Embedding of clap's resolution of the required `url` argument
(`#[arg(short, long, env = "DATABASE_URL")] url: String`, lines 12-19):
the flag value takes precedence, else the environment variable
(as it stands after the best-effort `dotenv().ok()`); if both are absent
clap reports a missing-required-argument error and the process exits
before `main`'s body runs any command. -/
def run_cli (w : World) (flag : Option String) (envUrl : Option String)
    (cmd : Commands) : Except Err Unit × List Event :=
  match flag with
  | some url => run_command w url cmd
  | none =>
    match envUrl with
    | some url => run_command w url cmd
    | none => (Except.error Err.configMissing, [])

/-- Is this event part of the Seed procedure's effect footprint
(file read, database connect, statement execution)? -/
def Event.isSeedEffect : Event → Bool
  | Event.readFile _ => true
  | Event.connectDb _ => true
  | Event.execStmt _ _ => true
  | _ => false

/-- Is this event a subprocess spawn? -/
def Event.isSpawn : Event → Bool
  | Event.spawnScript _ => true
  | _ => false

/-- Is this event a database connection attempt? -/
def Event.isConnect : Event → Bool
  | Event.connectDb _ => true
  | _ => false

/-- Is this event a file read? -/
def Event.isReadFile : Event → Bool
  | Event.readFile _ => true
  | _ => false

/-- Does this event use only `url` as the connection string and only `f` as
the file path? -/
def Event.usesArgs (url f : String) : Event → Bool
  | Event.checkScriptExists => true
  | Event.spawnScript a => a == url
  | Event.readFile p => p == f
  | Event.connectDb u => u == url
  | Event.execStmt u _ => u == url

/-! ### Concrete worlds used by the witnesses -/

/-- A world where everything works: the script exists and exits 0, every file
reads as a one-line insert, connections and executions succeed. -/
def wOk : World where
  scriptExists := true
  spawnResult := fun _ => some (some 0)
  fileContents := fun _ => some "INSERT INTO t(v) VALUES (1);"
  connectOk := fun _ => true
  executeOk := fun _ _ => true

/-- Like `wOk` but `./db_recreate.sh` is absent. -/
def wNoScript : World := { wOk with scriptExists := false }

/-- Like `wOk` but the recreation script exits with status 1. -/
def wBadScript : World := { wOk with spawnResult := fun _ => some (some 1) }

/-- Like `wOk` but the recreation script is killed by a signal
(terminates abnormally, yielding no exit code). -/
def wKilled : World := { wOk with spawnResult := fun _ => some none }

/-- Like `wOk` but every file read fails. -/
def wNoFile : World := { wOk with fileContents := fun _ => none }

/-! ### Helper lemmas about the traces of the three procedures -/

/-- The Recreate procedure's trace never contains a file read, a database
connection, or a statement execution, whatever the world. -/
theorem recreate_trace_no_seed_effect (w : World) (url : String) :
    ((run_recreate_script w url).2.all fun ev => !ev.isSeedEffect) = true := by
  unfold run_recreate_script
  cases hw : w.scriptExists with
  | false => simp [Event.isSeedEffect]
  | true =>
    cases hs : w.spawnResult url with
    | none => simp [Event.isSeedEffect]
    | some st => by_cases h0 : st = some 0 <;> simp [h0, Event.isSeedEffect]

/-- Every event in the Recreate trace uses only `url` as the connection
string (and no file path at all). -/
theorem recreate_trace_usesArgs (w : World) (url f : String) :
    ((run_recreate_script w url).2.all fun ev => ev.usesArgs url f) = true := by
  unfold run_recreate_script
  cases hw : w.scriptExists with
  | false => simp [Event.usesArgs]
  | true =>
    cases hs : w.spawnResult url with
    | none => simp [Event.usesArgs]
    | some st => by_cases h0 : st = some 0 <;> simp [h0, Event.usesArgs]

/-- Every event in the Seed trace uses only `url` as the connection string
and only `f` as the file path. -/
theorem seed_trace_usesArgs (w : World) (url f : String) :
    ((run_seed_sql w url f).2.all fun ev => ev.usesArgs url f) = true := by
  unfold run_seed_sql
  cases hf : w.fileContents f with
  | none => simp [Event.usesArgs]
  | some sql =>
    by_cases hc : w.connectOk url
    · by_cases he : w.executeOk url sql <;> simp [hc, he, Event.usesArgs]
    · simp [hc, Event.usesArgs]

/-- Claim C1: for every file path, Reset runs Recreate to completion and runs
Seed if and only if Recreate succeeded; when Recreate fails, no file read,
database connection or statement execution ever happens, and the Recreate
failure is Reset's final result; when Recreate succeeds, Reset continues
with exactly Seed(file) and returns its result. -/
theorem reset_runs_seed_iff_recreate_ok (w : World) (url f : String) (e : Err) :
    ((run_recreate_script w url).1 = Except.error e →
      (run_command w url (Commands.reset f)).1 = Except.error e ∧
      ((run_command w url (Commands.reset f)).2.all fun ev => !ev.isSeedEffect) = true) ∧
    ((run_recreate_script w url).1 = Except.ok () →
      run_command w url (Commands.reset f) =
        ((run_seed_sql w url f).1,
          (run_recreate_script w url).2 ++ (run_seed_sql w url f).2)) := by
  have ht := recreate_trace_no_seed_effect w url
  constructor
  · intro h
    have hsplit : run_recreate_script w url =
        (Except.error e, (run_recreate_script w url).2) := by rw [← h]
    unfold run_command
    rw [hsplit]
    exact ⟨rfl, ht⟩
  · intro h
    have hsplit : run_recreate_script w url =
        (Except.ok (), (run_recreate_script w url).2) := by rw [← h]
    unfold run_command
    rw [hsplit]

/-- Witness for C1: in the world without the recreation script, Reset fails
with the script-not-found error and its trace has no Seed effect; in the
all-good world, Reset is Recreate followed by Seed. -/
theorem reset_runs_seed_iff_recreate_ok_witness :
    ((run_command wNoScript "postgres://u" (Commands.reset "insert_data.sql")).1 =
        Except.error Err.scriptNotFound ∧
      ((run_command wNoScript "postgres://u" (Commands.reset "insert_data.sql")).2.all
          fun ev => !ev.isSeedEffect) = true) ∧
    run_command wOk "postgres://u" (Commands.reset "insert_data.sql") =
      ((run_seed_sql wOk "postgres://u" "insert_data.sql").1,
        (run_recreate_script wOk "postgres://u").2 ++
          (run_seed_sql wOk "postgres://u" "insert_data.sql").2) :=
  ⟨(reset_runs_seed_iff_recreate_ok wNoScript "postgres://u" "insert_data.sql"
      Err.scriptNotFound).1 rfl,
    (reset_runs_seed_iff_recreate_ok wOk "postgres://u" "insert_data.sql"
      Err.scriptNotFound).2 rfl⟩

/-- Claim C2: when the recreation script is absent at `./db_recreate.sh`,
Recreate fails immediately with the script-not-found error and its trace
contains no subprocess spawn. -/
theorem recreate_missing_script_no_spawn (w : World) (url : String)
    (h : w.scriptExists = false) :
    (run_recreate_script w url).1 = Except.error Err.scriptNotFound ∧
    ((run_recreate_script w url).2.all fun ev => !ev.isSpawn) = true := by
  unfold run_recreate_script
  rw [h]
  simp [Event.isSpawn]

/-- Witness for C2: the script-less world exercises the theorem. -/
theorem recreate_missing_script_no_spawn_witness :
    wNoScript.scriptExists = false ∧
    (run_recreate_script wNoScript "postgres://u").1 =
      Except.error Err.scriptNotFound ∧
    ((run_recreate_script wNoScript "postgres://u").2.all
        fun ev => !ev.isSpawn) = true :=
  ⟨rfl, (recreate_missing_script_no_spawn wNoScript "postgres://u" rfl).1,
    (recreate_missing_script_no_spawn wNoScript "postgres://u" rfl).2⟩

/-- Claim C3: when the script exists and the spawned child terminates with
`status.code() = st`, Recreate succeeds exactly when `st = some 0`; any
other termination fails carrying the observed code (`none` standing for a
signal-killed child with no code, reported as unknown). -/
theorem recreate_success_iff_exit_zero (w : World) (url : String) (st : Option Int)
    (h1 : w.scriptExists = true) (h2 : w.spawnResult url = some st) :
    (run_recreate_script w url).1 =
      if st = some 0 then Except.ok () else Except.error (Err.scriptExit st) := by
  unfold run_recreate_script
  rw [h1, h2]
  by_cases h0 : st = some 0 <;> simp [h0]

/-- Witness for C3: a child exiting 1 makes Recreate fail carrying code 1; a
signal-killed child (no code) makes it fail carrying unknown; exit 0
succeeds. -/
theorem recreate_success_iff_exit_zero_witness :
    (wBadScript.scriptExists = true ∧ wBadScript.spawnResult "u" = some (some 1) ∧
      (run_recreate_script wBadScript "u").1 =
        Except.error (Err.scriptExit (some 1))) ∧
    (wKilled.scriptExists = true ∧ wKilled.spawnResult "u" = some none ∧
      (run_recreate_script wKilled "u").1 = Except.error (Err.scriptExit none)) ∧
    (wOk.scriptExists = true ∧ wOk.spawnResult "u" = some (some 0) ∧
      (run_recreate_script wOk "u").1 = Except.ok ()) :=
  ⟨⟨rfl, rfl,
      (recreate_success_iff_exit_zero wBadScript "u" (some 1) rfl rfl).trans
        (if_neg (by decide))⟩,
    ⟨rfl, rfl,
      (recreate_success_iff_exit_zero wKilled "u" none rfl rfl).trans
        (if_neg (by decide))⟩,
    ⟨rfl, rfl,
      (recreate_success_iff_exit_zero wOk "u" (some 0) rfl rfl).trans
        (if_pos rfl)⟩⟩

/-- Claim C4: when the seed file reads as `sql` and the connection opens,
Seed's trace is exactly: read the file, connect, and submit `sql` itself —
the file's content, unmodified — as the single executed statement. -/
theorem seed_submits_file_verbatim (w : World) (url f sql : String)
    (hf : w.fileContents f = some sql) (hc : w.connectOk url = true) :
    (run_seed_sql w url f).2 =
      [Event.readFile f, Event.connectDb url, Event.execStmt url sql] := by
  unfold run_seed_sql
  rw [hf]
  by_cases he : w.executeOk url sql <;> simp [hc, he]

/-- Witness for C4: in the all-good world the insert statement in the file is
submitted byte-for-byte. -/
theorem seed_submits_file_verbatim_witness :
    wOk.fileContents "insert_data.sql" = some "INSERT INTO t(v) VALUES (1);" ∧
    wOk.connectOk "postgres://u" = true ∧
    (run_seed_sql wOk "postgres://u" "insert_data.sql").2 =
      [Event.readFile "insert_data.sql", Event.connectDb "postgres://u",
        Event.execStmt "postgres://u" "INSERT INTO t(v) VALUES (1);"] :=
  ⟨rfl, rfl,
    seed_submits_file_verbatim wOk "postgres://u" "insert_data.sql"
      "INSERT INTO t(v) VALUES (1);" rfl rfl⟩

/-- Claim C5: when the file cannot be read, Seed fails with the file-read
error and its trace contains no database connection attempt. -/
theorem seed_unreadable_file_no_connect (w : World) (url f : String)
    (h : w.fileContents f = none) :
    (run_seed_sql w url f).1 = Except.error (Err.fileRead f) ∧
    ((run_seed_sql w url f).2.all fun ev => !ev.isConnect) = true := by
  unfold run_seed_sql
  rw [h]
  simp [Event.isConnect]

/-- Witness for C5: the world where every read fails exercises the theorem. -/
theorem seed_unreadable_file_no_connect_witness :
    wNoFile.fileContents "missing.sql" = none ∧
    (run_seed_sql wNoFile "postgres://u" "missing.sql").1 =
      Except.error (Err.fileRead "missing.sql") ∧
    ((run_seed_sql wNoFile "postgres://u" "missing.sql").2.all
        fun ev => !ev.isConnect) = true :=
  ⟨rfl, (seed_unreadable_file_no_connect wNoFile "postgres://u" "missing.sql" rfl).1,
    (seed_unreadable_file_no_connect wNoFile "postgres://u" "missing.sql" rfl).2⟩

/-- Claim C6: Status opens a connection with the connection target and runs
the validation query `SELECT 1` on it; it succeeds exactly when both the
connect and the validation succeed, and otherwise fails with the
connection error (connect failed) or the query error (validation failed). -/
theorem status_succeeds_iff_connect_and_query (w : World) (url : String) :
    ((check_status w url).1 = Except.ok () ↔
      w.connectOk url = true ∧ w.executeOk url "SELECT 1" = true) ∧
    (check_status w url).1 =
      (if w.connectOk url then
        if w.executeOk url "SELECT 1" then Except.ok ()
        else Except.error Err.queryError
      else Except.error Err.connectionError) ∧
    (check_status w url).2.head? = some (Event.connectDb url) := by
  refine ⟨?_, ?_, ?_⟩ <;>
    by_cases hc : w.connectOk url <;>
      by_cases he : w.executeOk url "SELECT 1" <;>
        simp [check_status, hc, he]

/-- Claim C7: with the `--url` flag absent and `DATABASE_URL` unset, every
subcommand fails with the missing-configuration error and the effect trace
is empty: no network activity, no file read, no subprocess spawn. -/
theorem missing_config_fails_before_any_effect (w : World) (cmd : Commands) :
    run_cli w none none cmd = (Except.error Err.configMissing, []) := rfl

/-- Claim C8: whenever the recreation script exists, Recreate spawns it
exactly once, with the connection string as its sole positional argument,
and its result is computed from the child's exit status alone. -/
theorem recreate_spawn_arg_and_exit_code_only (w : World) (url : String)
    (h : w.scriptExists = true) :
    (run_recreate_script w url).2 =
      [Event.checkScriptExists, Event.spawnScript url] ∧
    (run_recreate_script w url).1 =
      (match w.spawnResult url with
       | none => Except.error Err.spawnFailed
       | some st =>
         if st = some 0 then Except.ok () else Except.error (Err.scriptExit st)) := by
  unfold run_recreate_script
  rw [h]
  cases hs : w.spawnResult url with
  | none => simp
  | some st => by_cases h0 : st = some 0 <;> simp [h0]

/-- Witness for C8: in the all-good world the trace is exactly an existence
check followed by one spawn carrying the url, and the result is success
because the exit status is 0. -/
theorem recreate_spawn_arg_and_exit_code_only_witness :
    wOk.scriptExists = true ∧
    (run_recreate_script wOk "postgres://db").2 =
      [Event.checkScriptExists, Event.spawnScript "postgres://db"] ∧
    (run_recreate_script wOk "postgres://db").1 = Except.ok () :=
  ⟨rfl, (recreate_spawn_arg_and_exit_code_only wOk "postgres://db" rfl).1,
    by rw [(recreate_spawn_arg_and_exit_code_only wOk "postgres://db" rfl).2]; rfl⟩

/-- Claim C9: the dispatcher runs exactly the one procedure selected by the
subcommand, and the procedures keep to their own effects: Status never
reads a file nor spawns a subprocess, Recreate never opens a database
connection nor executes a statement, Seed never spawns a subprocess. -/
theorem commands_mutually_exclusive_frames (w : World) (url f : String) :
    run_command w url Commands.status = check_status w url ∧
    run_command w url Commands.recreate = run_recreate_script w url ∧
    run_command w url (Commands.seed f) = run_seed_sql w url f ∧
    ((check_status w url).2.all
        fun ev => !ev.isReadFile && !ev.isSpawn) = true ∧
    ((run_recreate_script w url).2.all
        fun ev => !ev.isConnect && !ev.isSeedEffect) = true ∧
    ((run_seed_sql w url f).2.all fun ev => !ev.isSpawn) = true := by
  refine ⟨rfl, rfl, rfl, ?_, ?_, ?_⟩
  · by_cases hc : w.connectOk url <;>
      by_cases he : w.executeOk url "SELECT 1" <;>
        simp [check_status, hc, he, Event.isReadFile, Event.isSpawn]
  · unfold run_recreate_script
    cases hw : w.scriptExists with
    | false => simp [Event.isConnect, Event.isSeedEffect]
    | true =>
      cases hs : w.spawnResult url with
      | none => simp [Event.isConnect, Event.isSeedEffect]
      | some st =>
        by_cases h0 : st = some 0 <;>
          simp [h0, Event.isConnect, Event.isSeedEffect]
  · unfold run_seed_sql
    cases hf : w.fileContents f with
    | none => simp [Event.isSpawn]
    | some sql =>
      by_cases hc : w.connectOk url
      · by_cases he : w.executeOk url sql <;> simp [hc, he, Event.isSpawn]
      · simp [hc, Event.isSpawn]

/-- Claim C10: every event Reset performs carries the same single connection
string `url` (the script argument and the seeding connection use the
identical value) and the same single file path `f` (the path given to
Reset is the one Seed reads). -/
theorem reset_single_url_and_file (w : World) (url f : String) :
    ((run_command w url (Commands.reset f)).2.all
        fun ev => ev.usesArgs url f) = true := by
  have hrec := recreate_trace_usesArgs w url f
  have hseed := seed_trace_usesArgs w url f
  unfold run_command
  cases hr : run_recreate_script w url with
  | mk r t =>
    rw [hr] at hrec
    cases r with
    | error e => simpa using hrec
    | ok a => simp only [List.all_append] at hrec hseed ⊢; simp [hrec, hseed]
